import Mathlib

/-!
# Verification of the non-transitive dice game core (src/Dice.js)

Shallow embedding of the classes and functions in `src/Dice.js`:
`Dice` (construction and `roll`), `FairRandomGenerator` (constructor,
`generateNumber`, `revealKey`), `calculateProbabilities`, and the dice
selection steps of `NonTransitiveDiceGame`.

Randomness is made explicit: every call to `crypto.randomInt` takes an
`entropy : Nat` argument, and the library's contract (a value in
`[0, range)` for a positive range, an out-of-range error otherwise) is
realised by reduction modulo the range.  The keyed hash
`crypto.createHmac('sha3-256', key)` is external library code; it is
abstracted as a function argument `mac : List Nat → String → String`
(key bytes and message in, hex digest out), so every theorem quantifies
over an arbitrary deterministic MAC, which the real HMAC-SHA3-256 is.
-/

/-- Typed failures named by the spec's error model (§7). -/
inductive DiceError
  | invalidDieSpec
  | invalidModulus
  | invalidRange
  deriving DecidableEq, Repr

/-- A JavaScript number as classified by `Number.isInteger`: either an
integer value or a non-integer (fractional, `NaN`, `Infinity`). -/
inductive JSNum
  | int (n : Int)
  | nonInt
  deriving DecidableEq, Repr

/-- `Number.isInteger` on the embedded JS numbers. -/
def JSNum.isInteger : JSNum → Bool
  | .int _ => true
  | .nonInt => false

/-- A constructed die: the face array stored by the `Dice` constructor
(src/Dice.js:9).  After the constructor's guard every entry is an
integer, so faces are stored as `Int`. -/
structure Dice where
  values : List Int
  deriving DecidableEq, Repr

/-- Extracts the integer values of a list of JS numbers that passed the
`Number.isInteger` check. -/
def jsToInts (values : List JSNum) : List Int :=
  values.filterMap fun v => match v with
    | .int n => some n
    | .nonInt => none

/-- Embeds the `Dice` constructor (src/Dice.js:5-10): throws unless
`values.every(Number.isInteger)` holds and `values.length === 6`;
otherwise stores the faces. -/
def Dice.make (values : List JSNum) : Except DiceError Dice :=
  if values.all JSNum.isInteger && values.length == 6 then
    .ok ⟨jsToInts values⟩
  else
    .error .invalidDieSpec

/-- Model of `crypto.randomInt(max)` (Node crypto library): throws
`ERR_OUT_OF_RANGE` unless `0 < max`, otherwise returns a uniformly
random integer in `[0, max)`.  The entropy draw is the explicit `entropy`
argument; the in-range contract is realised by reduction mod `max`. -/
def randomInt (max : Int) (entropy : Nat) : Option Nat :=
  if 0 < max then some (entropy % max.toNat) else none

/-- Embeds `Dice.roll` (src/Dice.js:12-14):
`this.values[crypto.randomInt(this.values.length)]`.  JS indexing out of
bounds yields `undefined`; both that and a `randomInt` throw are modelled
by `none`. -/
def Dice.roll (d : Dice) (entropy : Nat) : Option Int :=
  match randomInt (d.values.length : Int) entropy with
  | some i => d.values.get? i
  | none => none

/-- The state of a `FairRandomGenerator` (src/Dice.js:18-33): the stored
range and the 32-byte secret key. -/
structure FairRandomGenerator where
  range : Int
  key : List Nat
  deriving DecidableEq, Repr

/-- Embeds the `FairRandomGenerator` constructor (src/Dice.js:19-22):
stores the range unchecked and draws a fresh key (`crypto.randomBytes(32)`,
passed explicitly).  A JS constructor may throw; this one performs no
validation, so the embedded constructor always returns `ok`. -/
def FairRandomGenerator.new (range : Int) (key : List Nat) :
    Except DiceError FairRandomGenerator :=
  .ok { range := range, key := key }

/-- Result of `generateNumber`: the drawn value and the hex HMAC digest. -/
structure GenResult where
  number : Nat
  hmac : String
  deriving DecidableEq, Repr

/-- Embeds `FairRandomGenerator.generateNumber` (src/Dice.js:24-28):
draws `number = crypto.randomInt(this.range)` and commits to
`hmac = HMAC-SHA3-256(this.key, number.toString())`.  The MAC is the
abstract `mac` argument; `none` models the `randomInt` throw on a
non-positive range. -/
def FairRandomGenerator.generateNumber (mac : List Nat → String → String)
    (g : FairRandomGenerator) (entropy : Nat) : Option GenResult :=
  match randomInt g.range entropy with
  | some number => some { number := number, hmac := mac g.key (toString number) }
  | none => none

/-- src/Dice.js:43: the count of faces `x` of die `i` such that the array
`dice[j].values.filter(y => x > y)` has truthy (non-zero) length, i.e.
`x` exceeds at least one face of die `j`. -/
def userWinsCount (di dj : Dice) : Nat :=
  (di.values.filter fun x => (dj.values.filter fun y => x > y).length != 0).length

/-- The numeric value of the off-diagonal matrix entry computed at
src/Dice.js:43-44: `userWins / dice[j].values.length`, as an exact
rational (the `toFixed(4)` string formatting is dropped). -/
def codeWinProbability (di dj : Dice) : Rat :=
  (userWinsCount di dj : Rat) / (dj.values.length : Rat)

/-- Embeds `calculateProbabilities` (src/Dice.js:36-49): a size×size
matrix, `none` on the diagonal (the `"-"` marker), the entry of
src/Dice.js:43-44 off the diagonal. -/
def calculateProbabilities (dice : List Dice) : List (List (Option Rat)) :=
  (List.range dice.length).map fun i =>
    (List.range dice.length).map fun j =>
      if i = j then none
      else match dice.get? i, dice.get? j with
        | some di, some dj => some (codeWinProbability di dj)
        | _, _ => none

/-- The spec's win-probability formula (§4.4): the number of ordered face
pairs `(x, y)` with `x` a face of die `i`, `y` a face of die `j` and
`x > y`, divided by 36. -/
def specWinProbability (di dj : Dice) : Rat :=
  ((di.values.map fun x => (dj.values.filter fun y => x > y).length).sum : Rat) / 36

/-- Modelled from the spec: the Combiner (§4.3) is absent from `src/`.
`combine(a, b, modulus)` returns `(a + b) mod modulus` (result in
`[0, modulus)`) and fails with `InvalidModulus` when `modulus <= 0`. -/
def combine (a b modulus : Int) : Except DiceError Int :=
  if 0 < modulus then .ok ((a + b) % modulus) else .error .invalidModulus

/-- Modelled from the spec: the standalone verification function (§4.2)
is absent from `src/`.  `verify(commitment, revealedKey, claimedValue)`
recomputes `MAC(revealedKey, decimalStringOf(claimedValue))` and compares
it to the commitment. -/
def verify (mac : List Nat → String → String) (commitment : String)
    (revealedKey : List Nat) (claimedValue : Nat) : Bool :=
  commitment == mac revealedKey (toString claimedValue)

/-- The game's dice pool with object identity made explicit: each die of
`this.dice` (src/Dice.js:85) tagged with its position. -/
def taggedPool (dice : List Dice) : List (Nat × Dice) :=
  dice.enum

/-- Embeds the selection step shared by `userSelectDice`
(src/Dice.js:136-147) and `computerSelectDice` (src/Dice.js:155-159): a
validated index `i` (`0 ≤ i < this.dice.length`) picks `this.dice[i]`,
then `this.dice.splice(i, 1)` removes it from the pool before the other
party selects from the remnant. -/
def selectDie (pool : List (Nat × Dice)) (i : Nat) :
    Option ((Nat × Dice) × List (Nat × Dice)) :=
  match pool.get? i with
  | some d => some (d, pool.eraseIdx i)
  | none => none

/-! ## Concrete dice from the spec's test vector (§8) -/

/-- Die A of the spec's non-transitive example: faces 2,2,4,4,9,9. -/
def diceA : Dice := ⟨[2, 2, 4, 4, 9, 9]⟩

/-- Die B of the spec's non-transitive example: faces 1,1,6,6,8,8. -/
def diceB : Dice := ⟨[1, 1, 6, 6, 8, 8]⟩

/-- Die C of the spec's non-transitive example: faces 3,3,5,5,7,7. -/
def diceC : Dice := ⟨[3, 3, 5, 5, 7, 7]⟩

/-! ## Helper lemmas -/

/-- Extracting the integers of a list of JS numbers that all pass
`Number.isInteger` preserves the length. -/
theorem jsToInts_length (values : List JSNum)
    (h : values.all JSNum.isInteger = true) :
    (jsToInts values).length = values.length := by
  induction values with
  | nil => rfl
  | cons v vs ih =>
    simp only [List.all_cons, Bool.and_eq_true] at h
    cases v with
    | int n =>
      have hstep : jsToInts (JSNum.int n :: vs) = n :: jsToInts vs := rfl
      rw [hstep, List.length_cons, List.length_cons, ih h.2]
    | nonInt => simp [JSNum.isInteger] at h

/-- On any die with a non-empty face list, `roll` returns one of the faces. -/
theorem roll_mem (d : Dice) (entropy : Nat) (h : 0 < d.values.length) :
    ∃ v, d.roll entropy = some v ∧ v ∈ d.values := by
  unfold Dice.roll randomInt
  have hpos : (0 : Int) < (d.values.length : Int) := by exact_mod_cast h
  rw [if_pos hpos]
  have htn : ((d.values.length : Int)).toNat = d.values.length := Int.toNat_natCast _
  have hidx : entropy % ((d.values.length : Int)).toNat < d.values.length := by
    rw [htn]; exact Nat.mod_lt _ h
  exact ⟨d.values.get ⟨_, hidx⟩, by simp [List.get?_eq_get hidx], List.get_mem _ _ hidx⟩

/-- Whenever `generateNumber` succeeds, the returned commitment is the MAC of
the key and the decimal string of the returned number. -/
theorem genResult_hmac_eq (mac : List Nat → String → String)
    (g : FairRandomGenerator) (e : Nat) (r : GenResult)
    (h : FairRandomGenerator.generateNumber mac g e = some r) :
    r.hmac = mac g.key (toString r.number) := by
  unfold FairRandomGenerator.generateNumber at h
  cases hr : randomInt g.range e with
  | none => rw [hr] at h; cases h
  | some n => rw [hr] at h; cases h; rfl

/-! ## Claims -/

/-- C1: the win-probability evaluator of src/Dice.js:36-49 does not enumerate
the 36 ordered face pairs.  On the spec's own dice A = [2,2,4,4,9,9] and
B = [1,1,6,6,8,8], the code's entry for (A, B) is `userWins / 6 = 6/6 = 1`
(it counts faces of A beating at least one face of B), while the claimed
formula `count(x, y : x > y) / 36` gives 20/36 = 5/9; for (B, A) the code
gives 2/3 against the claimed 16/36 = 4/9. -/
theorem C1_pair_count_divergence :
    calculateProbabilities [diceA, diceB] = [[none, some 1], [some (2/3), none]] ∧
    specWinProbability diceA diceB = 5/9 ∧ specWinProbability diceB diceA = 4/9 ∧
    (1 : Rat) ≠ 5/9 ∧ (2/3 : Rat) ≠ 4/9 := by
  have hAB : userWinsCount diceA diceB = 6 := by decide
  have hBA : userWinsCount diceB diceA = 4 := by decide
  have hsAB : (diceA.values.map fun x => (diceB.values.filter fun y => x > y).length).sum = 20 := by
    decide
  have hsBA : (diceB.values.map fun x => (diceA.values.filter fun y => x > y).length).sum = 16 := by
    decide
  have e1 : codeWinProbability diceA diceB = 1 := by
    rw [codeWinProbability, hAB, show diceB.values.length = 6 from rfl]; norm_num
  have e2 : codeWinProbability diceB diceA = 2/3 := by
    rw [codeWinProbability, hBA, show diceA.values.length = 6 from rfl]; norm_num
  refine ⟨?_, ?_, ?_, by norm_num, by norm_num⟩
  · simp [calculateProbabilities, show List.range 2 = [0, 1] from rfl, e1, e2]
  · rw [specWinProbability, hsAB]; norm_num
  · rw [specWinProbability, hsBA]; norm_num

/-- C2 counterexample: on one instance (range 2), a first call of
`generateNumber` whose entropy draw is 0 returns value 0, and a second call
whose fresh entropy draw is 1 succeeds and returns the different value 1 —
the second call is neither disallowed nor answered from a cache. -/
theorem C2_counterexample :
    FairRandomGenerator.generateNumber (fun _ _ => "") ⟨2, [0]⟩ 0 = some ⟨0, ""⟩ ∧
    FairRandomGenerator.generateNumber (fun _ _ => "") ⟨2, [0]⟩ 1 = some ⟨1, ""⟩ ∧
    (⟨0, ""⟩ : GenResult) ≠ (⟨1, ""⟩ : GenResult) :=
  ⟨rfl, rfl, by decide⟩

/-- C2 amended: `generateNumber` may be called any number of times on the same
instance; there is no AlreadyGenerated guard and no cache — every call draws a
fresh value from the sampler and recomputes the commitment from the key and
that fresh value alone. -/
theorem C2_repeat_generate_fresh (mac : List Nat → String → String)
    (g : FairRandomGenerator) (e : Nat) (h : 0 < g.range) :
    FairRandomGenerator.generateNumber mac g e =
      some ⟨e % g.range.toNat, mac g.key (toString (e % g.range.toNat))⟩ := by
  simp [FairRandomGenerator.generateNumber, randomInt, h]

/-- C2 witness: the amended statement at range 2, entropy 1. -/
theorem C2_repeat_generate_fresh_witness :
    FairRandomGenerator.generateNumber (fun _ _ => "") ⟨2, [0]⟩ 1 = some ⟨1, ""⟩ :=
  C2_repeat_generate_fresh (fun _ _ => "") ⟨2, [0]⟩ 1 (by decide)

/-- C3 counterexample: constructing a `FairRandomGenerator` with range 0
succeeds — the constructor stores the non-positive range unchecked instead of
failing with `InvalidRange`. -/
theorem C3_counterexample :
    FairRandomGenerator.new 0 (List.replicate 32 0) =
      .ok { range := 0, key := List.replicate 32 0 } ∧
    FairRandomGenerator.new 0 (List.replicate 32 0) ≠ .error .invalidRange :=
  ⟨rfl, fun h => Except.noConfusion h⟩

/-- C3 amended: construction with a non-positive range succeeds (the
constructor performs no validation); the failure only surfaces later, when
`generateNumber`'s call to `crypto.randomInt` rejects the stored range. -/
theorem C3_construction_unvalidated (range : Int) (key : List Nat)
    (mac : List Nat → String → String) (e : Nat) (h : range ≤ 0) :
    FairRandomGenerator.new range key = .ok ⟨range, key⟩ ∧
    FairRandomGenerator.generateNumber mac ⟨range, key⟩ e = none := by
  refine ⟨rfl, ?_⟩
  simp only [FairRandomGenerator.generateNumber, randomInt]
  rw [if_neg (by omega)]

/-- C3 witness: the amended statement at range 0. -/
theorem C3_construction_unvalidated_witness :
    FairRandomGenerator.new 0 (List.replicate 32 0) =
      .ok ⟨0, List.replicate 32 0⟩ ∧
    FairRandomGenerator.generateNumber (fun _ _ => "") ⟨0, List.replicate 32 0⟩ 5 = none :=
  C3_construction_unvalidated 0 (List.replicate 32 0) (fun _ _ => "") 5 (by decide)

/-- C4: for a positive modulus, `combine` returns `(a + b) mod modulus`, a
value in `[0, modulus)`, and is commutative; for a non-positive modulus it
fails with `InvalidModulus`.  It is a pure function of its three arguments. -/
theorem C4_combine_contract (a b m : Int) :
    (0 < m → combine a b m = .ok ((a + b) % m) ∧ 0 ≤ (a + b) % m ∧ (a + b) % m < m ∧
      combine a b m = combine b a m) ∧
    (m ≤ 0 → combine a b m = .error .invalidModulus) := by
  constructor
  · intro h
    refine ⟨by simp [combine, h], Int.emod_nonneg _ (by omega), Int.emod_lt_of_pos _ h, ?_⟩
    simp [combine, Int.add_comm]
  · intro h
    simp only [combine]
    rw [if_neg (by omega)]

/-- C4 witness: both branches of the contract at concrete inputs. -/
theorem C4_combine_contract_witness :
    combine 3 4 5 = .ok 2 ∧ combine 3 4 (-1) = .error .invalidModulus := by
  constructor
  · rw [((C4_combine_contract 3 4 5).1 (by decide)).1]; norm_num
  · exact (C4_combine_contract 3 4 (-1)).2 (by decide)

/-- C5: for every MAC function, key and number, verifying the commitment
`MAC(key, decimalStringOf(number))` against the revealed key and the claimed
number succeeds. -/
theorem C5_verify_roundtrip (mac : List Nat → String → String)
    (key : List Nat) (number : Nat) :
    verify mac (mac key (toString number)) key number = true := by
  simp [verify]

/-- C6: for every positive range, `generateNumber` succeeds and its value lies
in `[0, range)`; in particular, with range 2 the value is 0 or 1. -/
theorem C6_value_in_range (mac : List Nat → String → String)
    (g : FairRandomGenerator) (e : Nat) (h : 0 < g.range) :
    ∃ r, FairRandomGenerator.generateNumber mac g e = some r ∧
      (r.number : Int) < g.range ∧ (g.range = 2 → r.number = 0 ∨ r.number = 1) := by
  have h0 : 0 < g.range.toNat := by omega
  have hm : e % g.range.toNat < g.range.toNat := Nat.mod_lt _ h0
  refine ⟨⟨e % g.range.toNat, mac g.key (toString (e % g.range.toNat))⟩, ?_, ?_, ?_⟩
  · simp [FairRandomGenerator.generateNumber, randomInt, h]
  · show ((e % g.range.toNat : Nat) : Int) < g.range
    omega
  · intro h2
    show e % g.range.toNat = 0 ∨ e % g.range.toNat = 1
    omega

/-- C6 witness: a generator with range 2 and entropy 5 yields a value in
{0, 1}. -/
theorem C6_value_in_range_witness :
    ∃ r, FairRandomGenerator.generateNumber (fun _ _ => "") ⟨2, []⟩ 5 = some r ∧
      (r.number : Int) < (2 : Int) ∧ ((2 : Int) = 2 → r.number = 0 ∨ r.number = 1) :=
  C6_value_in_range (fun _ _ => "") ⟨2, []⟩ 5 (by decide)

/-- C7: the commitment is a deterministic function of the key and the
generated number — any two successful `generateNumber` computations with the
same key and the same resulting number produce identical digests, whatever
the entropy draws were. -/
theorem C7_commitment_deterministic (mac : List Nat → String → String)
    (g1 g2 : FairRandomGenerator) (e1 e2 : Nat) (r1 r2 : GenResult)
    (hkey : g1.key = g2.key)
    (h1 : FairRandomGenerator.generateNumber mac g1 e1 = some r1)
    (h2 : FairRandomGenerator.generateNumber mac g2 e2 = some r2)
    (hnum : r1.number = r2.number) :
    r1.hmac = r2.hmac := by
  rw [genResult_hmac_eq mac g1 e1 r1 h1, genResult_hmac_eq mac g2 e2 r2 h2, hkey, hnum]

/-- C7 witness: two computations on the same key (entropy 0 and 2, both
reducing to value 0 at range 2) yield the same digest. -/
theorem C7_commitment_deterministic_witness :
    FairRandomGenerator.generateNumber (fun _ s => s) ⟨2, [7]⟩ 0 = some ⟨0, "0"⟩ ∧
    FairRandomGenerator.generateNumber (fun _ s => s) ⟨2, [7]⟩ 2 = some ⟨0, "0"⟩ ∧
    (⟨0, "0"⟩ : GenResult).hmac = (⟨0, "0"⟩ : GenResult).hmac :=
  ⟨rfl, rfl,
    C7_commitment_deterministic (fun _ s => s) ⟨2, [7]⟩ ⟨2, [7]⟩ 0 2 ⟨0, "0"⟩ ⟨0, "0"⟩
      rfl rfl rfl rfl⟩

/-- C8: constructing a die succeeds exactly when the supplied list holds six
JS integers; every other input fails with the die-spec error. -/
theorem C8_die_construction_iff (values : List JSNum) :
    ((∃ d, Dice.make values = .ok d) ↔
      values.length = 6 ∧ ∀ v ∈ values, v.isInteger = true) ∧
    (¬ (values.length = 6 ∧ ∀ v ∈ values, v.isInteger = true) →
      Dice.make values = .error .invalidDieSpec) := by
  have hiff : (values.all JSNum.isInteger && values.length == 6) = true ↔
      (values.length = 6 ∧ ∀ v ∈ values, v.isInteger = true) := by
    simp [List.all_eq_true, and_comm]
  unfold Dice.make
  by_cases h : (values.all JSNum.isInteger && values.length == 6) = true
  · rw [if_pos h]
    exact ⟨⟨fun _ => hiff.mp h, fun _ => ⟨_, rfl⟩⟩, fun hc => absurd (hiff.mp h) hc⟩
  · rw [if_neg h]
    refine ⟨⟨fun hk => ?_, fun hr => absurd (hiff.mpr hr) h⟩, fun _ => rfl⟩
    obtain ⟨d, hd⟩ := hk
    cases hd

/-- C8 witness: six integer faces construct; a single non-integer face is
rejected with the die-spec error. -/
theorem C8_die_construction_iff_witness :
    (∃ d, Dice.make (List.replicate 6 (JSNum.int 1)) = .ok d) ∧
    Dice.make [JSNum.nonInt] = .error .invalidDieSpec :=
  ⟨(C8_die_construction_iff (List.replicate 6 (JSNum.int 1))).1.mpr ⟨by decide, by decide⟩,
   (C8_die_construction_iff [JSNum.nonInt]).2 (by decide)⟩

/-- C9: on any successfully constructed die, `roll` returns one of the die's
faces for every entropy draw — the random index is always in bounds. -/
theorem C9_roll_in_faces (values : List JSNum) (d : Dice) (entropy : Nat)
    (h : Dice.make values = .ok d) :
    ∃ v, d.roll entropy = some v ∧ v ∈ d.values := by
  unfold Dice.make at h
  by_cases hc : (values.all JSNum.isInteger && values.length == 6) = true
  · rw [if_pos hc] at h
    cases h
    obtain ⟨hall, hlen⟩ := Bool.and_eq_true _ _ |>.mp hc
    refine roll_mem _ entropy ?_
    show 0 < (jsToInts values).length
    rw [jsToInts_length values hall]
    have : values.length = 6 := by simpa using hlen
    omega
  · rw [if_neg hc] at h; cases h

/-- C9 witness: the die with faces 1..6 always rolls one of its faces. -/
theorem C9_roll_in_faces_witness :
    ∃ v, Dice.roll ⟨[1, 2, 3, 4, 5, 6]⟩ 7 = some v ∧
      v ∈ (Dice.mk [1, 2, 3, 4, 5, 6]).values :=
  C9_roll_in_faces
    [JSNum.int 1, JSNum.int 2, JSNum.int 3, JSNum.int 4, JSNum.int 5, JSNum.int 6]
    ⟨[1, 2, 3, 4, 5, 6]⟩ 7 rfl

/-- C10: whichever party selects first, its die is removed from the pool
before the other party selects, so the two selected dice are distinct objects
(distinct positions of the configured list), and both come from the
configured set. -/
theorem C10_distinct_dice (dice : List Dice) (i j : Nat)
    (first second : Nat × Dice) (rest rest2 : List (Nat × Dice))
    (h1 : selectDie (taggedPool dice) i = some (first, rest))
    (h2 : selectDie rest j = some (second, rest2)) :
    first.1 ≠ second.1 ∧ first.2 ∈ dice ∧ second.2 ∈ dice := by
  unfold selectDie at h1 h2
  unfold taggedPool at h1
  cases hg1 : dice.enum.get? i with
  | none => rw [hg1] at h1; cases h1
  | some p1 =>
    rw [hg1] at h1
    simp only [Option.some.injEq, Prod.mk.injEq] at h1
    obtain ⟨hf, hr⟩ := h1
    subst hf
    obtain ⟨hi, hp1⟩ := List.get?_eq_some.mp hg1
    have hi' : i < dice.length := by simpa [List.enum_length] using hi
    have hfirst : p1 = (i, dice[i]) := by
      rw [← hp1]; simp [List.get_eq_getElem, List.getElem_enum]
    cases hg2 : rest.get? j with
    | none => rw [hg2] at h2; cases h2
    | some p2 =>
      rw [hg2] at h2
      simp only [Option.some.injEq, Prod.mk.injEq] at h2
      obtain ⟨hs, _⟩ := h2
      subst hs
      have hmem : p2 ∈ rest := List.get?_mem hg2
      rw [← hr] at hmem
      obtain ⟨m, hm, hmi, hsec⟩ := List.mem_eraseIdx_iff_getElem.mp hmem
      have hm' : m < dice.length := by simpa [List.enum_length] using hm
      have hsecond : p2 = (m, dice[m]) := by
        rw [← hsec]; simp [List.getElem_enum]
      refine ⟨?_, ?_, ?_⟩
      · rw [hfirst, hsecond]; simpa using hmi.symm
      · rw [hfirst]; exact List.getElem_mem _
      · rw [hsecond]; exact List.getElem_mem _

/-- C10 witness: with the spec's three dice, the first party takes die B
(position 1), the second party then selects die A (position 0) from the
remnant: different positions, both from the configured set. -/
theorem C10_distinct_dice_witness :
    ((1, diceB) : Nat × Dice).1 ≠ ((0, diceA) : Nat × Dice).1 ∧
    ((1, diceB) : Nat × Dice).2 ∈ [diceA, diceB, diceC] ∧
    ((0, diceA) : Nat × Dice).2 ∈ [diceA, diceB, diceC] :=
  C10_distinct_dice [diceA, diceB, diceC] 1 0 (1, diceB) (0, diceA)
    [(0, diceA), (2, diceC)] [(2, diceC)] rfl rfl
